import Mathlib

/-!
# Futures (`a1-futures/future.go`)

A shallow embedding of the Go package `future`: the channel-backed `Future`
type with `NewFuture`, `CompleteFuture`, `GetResult`, `CloseFuture`, and the
three functions `Wait`, `GetWeatherData` and `heatWaveWarning` exactly as the
source has them.

Every operation is described from the point of view of the goroutine that
performs it, on the state the channel has at that moment.  An operation either
returns, cannot proceed in that state (`Outcome.blocks`: the goroutine parks
until some other goroutine changes the channel), or panics.
-/

set_option linter.unusedVariables false

namespace Futures

/-- Go values of dynamic type `interface{}` that the package and its tests
store in futures: the nil interface, `int`, `float64` (a finite value is
represented by the rational it denotes; the source performs no floating-point
arithmetic), `bool`, and the struct `WeatherDataResult` with its fields `Value`
and `Err` (a nil `error` is `none`, otherwise the error text). -/
inductive Value where
  | nil : Value
  | int (i : Int) : Value
  | float64 (x : ℚ) : Value
  | bool (b : Bool) : Value
  | weatherDataResult (value : Value) (err : Option String) : Value
deriving DecidableEq

/-- What happens to the goroutine that performs an operation. -/
inductive Outcome (α : Type) where
  | ok (a : α) : Outcome α
  | blocks : Outcome α
  | panics : Outcome α
deriving DecidableEq

/-- A Go channel `chan interface{}`: the queued values (oldest first), the
capacity given to `make`, and whether `close` has been called. -/
structure Chan where
  buf : List Value
  cap : Nat
  closed : Bool
deriving DecidableEq

/-- The Go expression `make(chan interface{}, cap)`. -/
def makeChan (cap : Nat) : Chan :=
  { buf := [], cap := cap, closed := false }

/-- The Go statement `ch <- v`.  On a nil channel it blocks forever, on a closed channel
it panics, with room in the buffer it enqueues, otherwise it blocks. -/
def chanSend : Option Chan → Value → Outcome Unit × Option Chan
  | none, _ => (Outcome.blocks, none)
  | some c, v =>
    if c.closed then (Outcome.panics, some c)
    else if c.buf.length < c.cap then
      (Outcome.ok (), some { c with buf := c.buf ++ [v] })
    else (Outcome.blocks, some c)

/-- The Go expression `<-ch`.  A queued value is dequeued; an empty closed
channel yields the zero value (the nil interface); an empty open channel and
a nil channel block. -/
def chanRecv : Option Chan → Outcome Value × Option Chan
  | none => (Outcome.blocks, none)
  | some c =>
    match c.buf with
    | x :: rest => (Outcome.ok x, some { c with buf := rest })
    | [] => if c.closed then (Outcome.ok Value.nil, some c) else (Outcome.blocks, some c)

/-- The Go call `close(ch)`.  Closing a nil or an already closed channel
panics. -/
def chanClose : Option Chan → Outcome Unit × Option Chan
  | none => (Outcome.panics, none)
  | some c =>
    if c.closed then (Outcome.panics, some c)
    else (Outcome.ok (), some { c with closed := true })

/-- The struct `Future`: its only field is the channel `result` (which a zero
`Future` leaves nil). -/
structure Future where
  result : Option Chan
deriving DecidableEq

/-- `NewFuture`: a future over a fresh channel of capacity 1. -/
def NewFuture : Future :=
  { result := some (makeChan 1) }

/-- `CloseFuture`: `close(f.result)`. -/
def CloseFuture (f : Future) : Outcome Unit × Future :=
  match chanClose f.result with
  | (o, r) => (o, { result := r })

/-- `CompleteFuture`: `f.result <- res`, then `f.CloseFuture()`. -/
def CompleteFuture (f : Future) (res : Value) : Outcome Unit × Future :=
  match chanSend f.result res with
  | (Outcome.ok _, r) => CloseFuture { result := r }
  | (Outcome.blocks, r) => (Outcome.blocks, { result := r })
  | (Outcome.panics, r) => (Outcome.panics, { result := r })

/-- `GetResult`: `return <-f.result`. -/
def GetResult (f : Future) : Outcome Value × Future :=
  match chanRecv f.result with
  | (o, r) => (o, { result := r })

/-- `Wait` as the source has it: the body is `return nil`, whatever the
arguments.  `futures` is a slice of pointers (a nil pointer is `none`), `n` a
Go `int`, `timeout` a `time.Duration` in nanoseconds, `filter` a possibly nil
function value.  No future is touched. -/
def Wait (futures : List (Option Future)) (n : Int) (timeout : Int)
    (filter : Option (Value → Bool)) : Outcome (List Value) :=
  Outcome.ok []

/-- `GetWeatherData` as the source has it: the body is `return nil`, so the
returned `*Future` is the nil pointer.  `Client` stands for `rpc.Client`. -/
def GetWeatherData {Client : Type} (client : Option Client) (id : Int) :
    Outcome (Option Future) :=
  Outcome.ok none

/-- `heatWaveWarning` as the source has it: the body is `return false`. -/
def heatWaveWarning (res : Value) : Bool :=
  false

/-! ### Drivers used to state the properties -/

/-- The future handed out by the test helper `slowFunction`, in the state it
has once the helper's goroutine has finished: closed without a value when
`unreliable`, otherwise completed with `randomNumber`. -/
def slowFunctionDone (unreliable : Bool) (randomNumber : Int) : Future :=
  if unreliable then (CloseFuture NewFuture).2
  else (CompleteFuture NewFuture (Value.int randomNumber)).2

/-- The outcomes of `k` successive `GetResult` calls on one future, and the
future's state after the last of them. -/
def GetResults : Nat → Future → List (Outcome Value) × Future
  | 0, f => ([], f)
  | k + 1, f =>
    match GetResult f with
    | (o, f1) =>
      match GetResults k f1 with
      | (os, f2) => (o :: os, f2)

/-- A future counts as terminated once a `CompleteFuture` or a `CloseFuture`
call on it has returned; reading it afterwards does not change that. -/
inductive Terminated : Future → Prop where
  | completed (f0 : Future) (v : Value) (f : Future) :
      CompleteFuture f0 v = (Outcome.ok (), f) → Terminated f
  | abandoned (f0 : Future) (f : Future) :
      CloseFuture f0 = (Outcome.ok (), f) → Terminated f
  | observed (f : Future) (x : Value) (f1 : Future) :
      Terminated f → GetResult f = (Outcome.ok x, f1) → Terminated f1

/-- The channel of the future is closed. -/
def isClosed (f : Future) : Bool :=
  match f.result with
  | none => false
  | some c => c.closed

/-- The ten futures of `TestFutureBasic`, each completed with an integer. -/
def basicFutures : List (Option Future) :=
  (List.range 10).map (fun i => some (slowFunctionDone false (1000 + i)))

/-- The ten futures of `TestFutureUnreliable`, each closed without a value. -/
def unreliableFutures : List (Option Future) :=
  (List.range 10).map (fun _ => some (slowFunctionDone true 0))

/-- The results expected by `TestGetWeatherDataFilter`: temperatures
20, 30, ..., 110, each wrapped in a `WeatherDataResult` with a nil `Err`. -/
def filterTestResults : List Value :=
  (List.range 10).map
    (fun i => Value.weatherDataResult (Value.float64 (10 * ((i : ℚ) + 2))) none)

/-! ### Auxiliary facts about the channel operations -/

theorem isClosed_of_CloseFuture (f0 f : Future)
    (h : CloseFuture f0 = (Outcome.ok (), f)) : isClosed f = true := by
  rcases f0 with ⟨_ | c⟩
  · simp [CloseFuture, chanClose] at h
  · by_cases hc : c.closed = true
    · simp [CloseFuture, chanClose, hc] at h
    · simp [CloseFuture, chanClose, hc] at h
      subst h
      rfl

theorem isClosed_of_CompleteFuture (f0 : Future) (v : Value) (f : Future)
    (h : CompleteFuture f0 v = (Outcome.ok (), f)) : isClosed f = true := by
  rcases f0 with ⟨_ | c⟩
  · simp [CompleteFuture, chanSend] at h
  · by_cases hc : c.closed = true
    · simp [CompleteFuture, chanSend, hc] at h
    · by_cases hl : c.buf.length < c.cap
      · simp only [CompleteFuture, chanSend, hc, hl, if_true, if_false] at h
        exact isClosed_of_CloseFuture _ _ h
      · simp [CompleteFuture, chanSend, hc, hl] at h

theorem isClosed_of_GetResult (f : Future) (o : Outcome Value) (f1 : Future)
    (hf : isClosed f = true) (h : GetResult f = (o, f1)) : isClosed f1 = true := by
  rcases f with ⟨_ | ⟨buf, cap, closed⟩⟩
  · simp [isClosed] at hf
  · simp only [isClosed] at hf
    subst hf
    cases buf with
    | nil =>
      simp [GetResult, chanRecv] at h
      rw [← h.2]
      rfl
    | cons x rest =>
      simp [GetResult, chanRecv] at h
      rw [← h.2]
      rfl

theorem isClosed_of_Terminated (f : Future) (h : Terminated f) : isClosed f = true := by
  induction h with
  | completed f0 v f hc => exact isClosed_of_CompleteFuture f0 v f hc
  | abandoned f0 f hc => exact isClosed_of_CloseFuture f0 f hc
  | observed f x f1 _ hg ih => exact isClosed_of_GetResult f _ f1 ih hg

theorem CompleteFuture_of_isClosed (f : Future) (w : Value) (hf : isClosed f = true) :
    CompleteFuture f w = (Outcome.panics, f) := by
  rcases f with ⟨_ | ⟨buf, cap, closed⟩⟩
  · simp [isClosed] at hf
  · simp only [isClosed] at hf
    subst hf
    rfl

theorem GetResult_of_isClosed (f : Future) (hf : isClosed f = true) :
    ∃ x f1, GetResult f = (Outcome.ok x, f1) := by
  rcases f with ⟨_ | ⟨buf, cap, closed⟩⟩
  · simp [isClosed] at hf
  · simp only [isClosed] at hf
    subst hf
    cases buf with
    | nil => exact ⟨Value.nil, _, rfl⟩
    | cons x rest => exact ⟨x, _, rfl⟩

theorem GetResults_drained (k : Nat) :
    GetResults k { result := some { buf := [], cap := 1, closed := true } } =
      (List.replicate k (Outcome.ok Value.nil),
        { result := some { buf := [], cap := 1, closed := true } }) := by
  induction k with
  | zero => rfl
  | succ k ih =>
    simp only [GetResults, GetResult, chanRecv, if_true, ih, List.replicate_succ]

/-! ### The future itself -/

/-- C2: on a future freshly created by `NewFuture`, `CompleteFuture(v)` returns
(it neither blocks nor panics) and the following `GetResult()` returns `v`
(again without blocking). -/
theorem CompleteFuture_then_GetResult (v : Value) :
    (CompleteFuture NewFuture v).1 = Outcome.ok () ∧
      (GetResult (CompleteFuture NewFuture v).2).1 = Outcome.ok v := by
  constructor <;> rfl

/-- C3, as stated, fails: after `CompleteFuture(7)` on a new future the second
`GetResult()` does not return 7 (it returns nil), and the first `GetResult()`
leaves the future in a different state from the one it found. -/
theorem GetResult_twice_counterexample :
    (GetResult (GetResult (CompleteFuture NewFuture (Value.int 7)).2).2).1
        ≠ Outcome.ok (Value.int 7) ∧
      (GetResult (CompleteFuture NewFuture (Value.int 7)).2).2
        ≠ (CompleteFuture NewFuture (Value.int 7)).2 := by
  constructor <;> decide

/-- C3, amended: after `CompleteFuture(v)` on a new future, of any `k + 1`
successive `GetResult()` calls the first returns `v` and each later one returns
nil, none of them blocking; the first call removes the value from the
channel, so the state after it differs from the state before it, and every
later call leaves the state as it found it. -/
theorem GetResult_consumes_value (v : Value) (k : Nat) :
    GetResults (k + 1) (CompleteFuture NewFuture v).2 =
        (Outcome.ok v :: List.replicate k (Outcome.ok Value.nil),
          (GetResult (CompleteFuture NewFuture v).2).2) ∧
      (GetResult (CompleteFuture NewFuture v).2).2 ≠ (CompleteFuture NewFuture v).2 ∧
      (GetResult (GetResult (CompleteFuture NewFuture v).2).2).2 =
        (GetResult (CompleteFuture NewFuture v).2).2 := by
  refine ⟨?_, ?_, rfl⟩
  · have h := GetResults_drained k
    show (match GetResult (CompleteFuture NewFuture v).2 with
      | (o, f1) => match GetResults k f1 with | (os, f2) => (o :: os, f2)) = _
    have hg : GetResult (CompleteFuture NewFuture v).2 =
        (Outcome.ok v, { result := some { buf := [], cap := 1, closed := true } }) := rfl
    rw [hg]
    simp only [h]
  · intro h
    have hb := congrArg (fun f : Future => f.result.map Chan.buf) h
    simp [GetResult, CompleteFuture, CloseFuture, chanRecv, chanSend, chanClose,
      NewFuture, makeChan] at hb

/-- C4, as stated, fails: a future completed with 5 still hands 5 to its reader
after a further (panicking) `CompleteFuture(5)`, so the reader does obtain the
value `w` of the second call. -/
theorem CompleteFuture_same_value_counterexample :
    ¬ ((CompleteFuture (CompleteFuture NewFuture (Value.int 5)).2 (Value.int 5)).1
          = Outcome.panics ∧
        (GetResult
            (CompleteFuture (CompleteFuture NewFuture (Value.int 5)).2 (Value.int 5)).2).1
          ≠ Outcome.ok (Value.int 5)) := by
  decide

/-- C4, amended: on every future that has already been completed by
`CompleteFuture` or abandoned by `CloseFuture` (read since or not), a further
`CompleteFuture(w)` panics and leaves the future as it was, so a reader obtains
exactly what it would have obtained without that call (and does obtain
something); on a future completed with `v` and not yet read that is `v`, on an
abandoned one it is nil. -/
theorem CompleteFuture_after_termination (f : Future) (h : Terminated f) (w : Value) :
    CompleteFuture f w = (Outcome.panics, f) ∧
      GetResult (CompleteFuture f w).2 = GetResult f ∧
      (∃ x f1, GetResult f = (Outcome.ok x, f1)) ∧
      (∀ v, (GetResult (CompleteFuture (CompleteFuture NewFuture v).2 w).2).1
          = Outcome.ok v) ∧
      (GetResult (CompleteFuture (CloseFuture NewFuture).2 w).2).1
          = Outcome.ok Value.nil := by
  have hc := isClosed_of_Terminated f h
  have hp := CompleteFuture_of_isClosed f w hc
  refine ⟨hp, by rw [hp], GetResult_of_isClosed f hc, fun v => rfl, rfl⟩

/-- C4, amended, at a future completed with 5 and then completed again with 5. -/
theorem CompleteFuture_after_termination_witness :
    Terminated (CompleteFuture NewFuture (Value.int 5)).2 ∧
      CompleteFuture (CompleteFuture NewFuture (Value.int 5)).2 (Value.int 5)
        = (Outcome.panics, (CompleteFuture NewFuture (Value.int 5)).2) :=
  ⟨Terminated.completed NewFuture (Value.int 5) _ rfl,
    (CompleteFuture_after_termination (CompleteFuture NewFuture (Value.int 5)).2
      (Terminated.completed NewFuture (Value.int 5) _ rfl) (Value.int 5)).1⟩

/-- C5: on a future freshly created by `NewFuture`, `CloseFuture()` returns and
the following `GetResult()` returns the nil value without blocking (and leaves
the future as it is), whereas `GetResult()` on the new future itself, neither
completed nor closed, blocks. -/
theorem CloseFuture_then_GetResult :
    (CloseFuture NewFuture).1 = Outcome.ok () ∧
      GetResult (CloseFuture NewFuture).2 = (Outcome.ok Value.nil, (CloseFuture NewFuture).2) ∧
      GetResult NewFuture = (Outcome.blocks, NewFuture) := by
  refine ⟨rfl, rfl, rfl⟩

/-! ### `Wait`, `GetWeatherData` and `heatWaveWarning` -/

/-- C1, the code at the input of `TestFutureBasic`: each of the ten futures
holds an integer that `GetResult()` returns at once, the target is 6, the
timeout 300ms and the filter nil, yet `Wait` returns an empty result instead
of 6 values. -/
theorem Wait_basicFutures_empty :
    basicFutures.map (fun p => p.map (fun f => (GetResult f).1)) =
        (List.range 10).map (fun i => some (Outcome.ok (Value.int (1000 + i)))) ∧
      ∃ r, Wait basicFutures 6 300000000 none = Outcome.ok r ∧ r.length = 0 ∧
        r.length ≠ 6 := by
  refine ⟨by decide, [], rfl, rfl, by decide⟩

/-- C6, as stated, fails: with one future and target -1 the result of `Wait`
has length 0, which is not at most min(-1, 1) = -1. -/
theorem Wait_cap_negative_counterexample :
    ¬ (∃ r, Wait [some NewFuture] (-1) 300000000 none = Outcome.ok r ∧
        (r.length : Int) ≤ min (-1) (([some NewFuture] : List (Option Future)).length : Int)) := by
  rintro ⟨r, hr, hle⟩
  simp only [Wait, Outcome.ok.injEq] at hr
  subst hr
  revert hle
  decide

/-- C6, amended: for all inputs `Wait` returns a result whose length is at most
max(0, min(n, len(futures))): at most min(n, len(futures)) whenever n >= 0,
and 0 when n is negative. -/
theorem Wait_length_le (futures : List (Option Future)) (n : Int) (timeout : Int)
    (filter : Option (Value → Bool)) :
    ∃ r, Wait futures n timeout filter = Outcome.ok r ∧
      (r.length : Int) ≤ max 0 (min n (futures.length : Int)) :=
  ⟨[], rfl, le_max_left _ _⟩

/-- C7, the code at the input of `TestFutureUnreliable`: each of the ten
futures was closed without a value, so `GetResult()` returns nil on it at
once; the target is 6, the timeout 300ms and the filter nil, yet `Wait`
returns an empty result instead of 6 entries. -/
theorem Wait_unreliableFutures_empty :
    unreliableFutures.map (fun p => p.map (fun f => (GetResult f).1)) =
        List.replicate 10 (some (Outcome.ok Value.nil)) ∧
      ∃ r, Wait unreliableFutures 6 300000000 none = Outcome.ok r ∧ r = [] ∧
        r.length ≠ 6 := by
  refine ⟨by decide, [], rfl, rfl, by decide⟩

/-- C8, the code: `heatWaveWarning` is false on every result, among them a
`WeatherDataResult` with nil `Err` and temperature 40, and of the results for
the temperatures 20, 30, ..., 110 it keeps none. -/
theorem heatWaveWarning_always_false :
    (∀ res, heatWaveWarning res = false) ∧
      heatWaveWarning (Value.weatherDataResult (Value.float64 40) none) = false ∧
      (filterTestResults.filter heatWaveWarning).length = 0 := by
  refine ⟨fun _ => rfl, rfl, ?_⟩
  simp [heatWaveWarning]

/-- C9, the code: for every client and station id `GetWeatherData` returns at
once, and what it returns is the nil pointer, not a future; so it is for a
connected client and station 2. -/
theorem GetWeatherData_returns_nil (Client : Type) (client : Option Client) (id : Int) :
    GetWeatherData client id = Outcome.ok none ∧
      GetWeatherData (some ()) 2 = Outcome.ok none :=
  ⟨rfl, rfl⟩

/-- C10, as stated, fails: `Wait` with target -1 does not panic. -/
theorem Wait_negative_target_counterexample :
    Wait basicFutures (-1) 300000000 none ≠ Outcome.panics := by
  intro h
  simp [Wait] at h

/-- C10, amended: for every list of futures, timeout and filter, and every
n < 0, `Wait` does not panic: it returns the empty result. -/
theorem Wait_negative_target (futures : List (Option Future)) (n : Int) (timeout : Int)
    (filter : Option (Value → Bool)) (hn : n < 0) :
    Wait futures n timeout filter = Outcome.ok [] :=
  rfl

/-- C10, amended, at the futures of `TestFutureBasic` and target -1. -/
theorem Wait_negative_target_witness :
    (-1 : Int) < 0 ∧ Wait basicFutures (-1) 300000000 none = Outcome.ok [] :=
  ⟨by decide, Wait_negative_target basicFutures (-1) 300000000 none (by decide)⟩

end Futures
